import Mathlib

/-!
Verification of the MySQL Data Dictionary Generator (src/main.py).

The development shallowly embeds the PII detection and masking subsystem
(class PIIDetector), the sample-data cell rendering and per-table loop of
class MySQLDataDictionary, and the configuration reader get_db_config.
Python strings are modelled as Lean String (lists of characters, ASCII
range faithful); fallible Python code (string indexing that can raise
IndexError) returns Except; regular-expression searches are modelled as
executable position-set matchers with the exact semantics of the
patterns appearing in the source.
-/

set_option maxRecDepth 20000

/-! ## Python string primitives used by the source -/

/-- Model of Python str.split(sep) for a one-character separator:
splits on every occurrence and keeps empty fields; the result is
always nonempty. -/
def pySplit (sep : Char) : List Char → List (List Char)
  | [] => [[]]
  | c :: rest =>
    let r := pySplit sep rest
    if c == sep then [] :: r
    else
      match r with
      | h :: t => (c :: h) :: t
      | [] => [[c]]

/-- Characters stripped by Python str.strip() with no argument
(ASCII whitespace: space, tab, newline, carriage return, vertical tab,
form feed); also the characters matched by the regex class backslash-s. -/
def isPySpace (c : Char) : Bool :=
  c == ' ' || c == '\t' || c == '\n' || c == '\r' || c.toNat == 11 || c.toNat == 12

/-- Model of Python str.strip(): drop whitespace from both ends. -/
def pyStrip (s : List Char) : List Char :=
  ((s.dropWhile isPySpace).reverse.dropWhile isPySpace).reverse

/-- Model of Python str.lower() on one character (ASCII range: the
uppercase letters A..Z, code points 65..90, map to code points 97..122). -/
def pyLowerChar (c : Char) : Char :=
  if 65 ≤ c.toNat && c.toNat ≤ 90 then Char.ofNat (c.toNat + 32) else c

/-- Model of Python str.lower() (ASCII faithful). -/
def pyLower (s : String) : String :=
  String.mk (s.data.map pyLowerChar)

/-- Model of re.sub with pattern backslash-D replaced by the empty string:
keep only the decimal digits 0..9. -/
def pyDigits (s : List Char) : List Char :=
  s.filter Char.isDigit

/-- Model of Python s[-n:] for nonempty suffix extraction. -/
def takeLast (n : Nat) (l : List Char) : List Char :=
  l.drop (l.length - n)

/-- Substring containment, the notion used by the Python expression
`sub in hay` for strings (and by the spec sentence
"name contains substring X"). -/
def specContains (sub : List Char) : List Char → Bool
  | [] => sub.isEmpty
  | c :: rest => sub.isPrefixOf (c :: rest) || specContains sub rest

/-- Python `sub in hay` on String values. -/
def containsSub (hay sub : String) : Bool :=
  specContains sub.data hay.data

/-! ## Data model -/

/-- A scalar sample value as it flows through the program: SQL NULL
(Python None), a Python string, or any other scalar (number, date or
time, byte sequence) identified by the string returned by str(). -/
inductive Value where
  | vNone : Value
  | vStr : String → Value
  | vOther : String → Value
deriving DecidableEq, Repr

/-- Model of Python str(value): a string maps to itself and any other
scalar to its textual form. (The None branch is never reached by
mask_data_value, which returns early on None.) -/
def pyStr : Value → String
  | .vNone => "None"
  | .vStr s => s
  | .vOther r => r

/-- The runtime error the masking code can actually raise: IndexError
from indexing an empty string, in _mask_email. -/
inductive PyError where
  | indexError : PyError
deriving DecidableEq, Repr

/-- The keys of PIIDetector.data_patterns, in dictionary insertion
order. -/
inductive PatternKind where
  | email | phone | ssn | creditCard | ipAddress | url
deriving DecidableEq, Repr

/-- The masking category chosen by _mask_by_column_type from the column
name (the chain of elif branches, in source order). -/
inductive PiiCategory where
  | email | phone | ssn | password | creditCard | address | name | salary | other
deriving DecidableEq, Repr

/-! ## Column Classifier (PIIDetector.is_pii_column) -/

/-- The literal cores of the pii_column_patterns list: each source
pattern is the regex dot-star, a literal substring, dot-star. -/
def piiColumnSubstrings : List String :=
  ["email", "mail", "e_mail",
   "phone", "mobile", "tel", "fax",
   "ssn", "social_security", "tax_id",
   "credit_card", "card_number", "cc_num",
   "password", "passwd", "pwd", "pass",
   "license", "licence", "dl_number",
   "passport", "visa", "identity",
   "address", "addr", "street", "zip", "postal",
   "dob", "birth", "birthday", "age",
   "salary", "wage", "income", "earning",
   "first_name", "last_name", "full_name", "fname", "lname",
   "maiden", "middle_name", "nickname",
   "account", "routing", "iban", "swift",
   "ip_address", "ip_addr", "user_agent",
   "token", "key", "secret", "api_key",
   "signature", "fingerprint", "hash"]

/-- Model of re.match applied to a pattern of the shape dot-star,
literal pat, dot-star: the match is anchored at the start, the regex
dot does not cross a newline, and the trailing dot-star is vacuous, so
the pattern matches exactly when pat occurs at a position preceded by
no newline character. -/
def reMatchDotStar (pat : List Char) : List Char → Bool
  | [] => pat.isPrefixOf []
  | c :: rest => pat.isPrefixOf (c :: rest) || (c != '\n' && reMatchDotStar pat rest)

/-- Model of PIIDetector.is_pii_column: lower the name and try every
column-name pattern; any match suffices. -/
def isPiiColumn (columnName : String) : Bool :=
  piiColumnSubstrings.any (fun p => reMatchDotStar p.data (pyLower columnName).data)

/-! ## Content Classifier (PIIDetector.data_patterns, re.search)

Each compiled pattern is modelled by an executable matcher: a match
attempt at a position yields the list of positions where the attempt
can end (all backtracking alternatives), and re.search succeeds when
some start position admits a nonempty attempt reaching the pattern
end. -/

/-- Word characters of the regex backslash-w (ASCII). -/
def wordCharB (c : Char) : Bool :=
  c.isAlphanum || c == '_'

/-- Is the character at position i (if any) a word character. -/
def isWordAt (s : List Char) (i : Nat) : Bool :=
  match s.get? i with
  | some c => wordCharB c
  | none => false

/-- The zero-width word-boundary assertion backslash-b at position i. -/
def boundaryAt (s : List Char) (i : Nat) : Bool :=
  (decide (0 < i) && isWordAt s (i - 1)) != isWordAt s i

/-- Consume one character of a class. -/
def stepClass (s : List Char) (cls : Char → Bool) (i : Nat) : List Nat :=
  match s.get? i with
  | some c => if cls c then [i + 1] else []
  | none => []

/-- Consume one literal character. -/
def stepChar (s : List Char) (c : Char) (i : Nat) : List Nat :=
  stepClass s (· == c) i

/-- Consume a literal character sequence. -/
def stepLit (s : List Char) (lit : List Char) (i : Nat) : List Nat :=
  if lit.isPrefixOf (s.drop i) then [i + lit.length] else []

/-- Remove duplicate positions (the matchers only care about position
sets). -/
def dedupPos : List Nat → List Nat
  | [] => []
  | x :: xs => if (dedupPos xs).contains x then dedupPos xs else x :: dedupPos xs

/-- All end positions reachable from some position of ps by f. -/
def pBind (ps : List Nat) (f : Nat → List Nat) : List Nat :=
  dedupPos ((ps.map f).join)

/-- Sequential composition, pipeline style. -/
def pSeq (f : Nat → List Nat) (ps : List Nat) : List Nat :=
  pBind ps f

/-- The regex question mark on a single consumer. -/
def pOpt (f : Nat → List Nat) (ps : List Nat) : List Nat :=
  dedupPos (ps ++ pBind ps f)

/-- The regex question mark on a compound group. -/
def pOptSet (g : List Nat → List Nat) (ps : List Nat) : List Nat :=
  dedupPos (ps ++ g ps)

/-- Exactly n repetitions. -/
def pRepN (f : Nat → List Nat) : Nat → List Nat → List Nat
  | 0, ps => ps
  | n + 1, ps => pRepN f n (pBind ps f)

/-- Zero or more repetitions, bounded by fuel (every consumer advances
the position, so fuel = length of the subject suffices). -/
def pStar (f : Nat → List Nat) : Nat → List Nat → List Nat
  | 0, ps => ps
  | n + 1, ps => dedupPos (ps ++ pStar f n (pBind ps f))

/-- One or more repetitions. -/
def pPlus (f : Nat → List Nat) (fuel : Nat) (ps : List Nat) : List Nat :=
  pStar f fuel (pBind ps f)

/-- Character class of the email local part: A-Za-z0-9 dot underscore
percent plus hyphen. -/
def emailLocalClass (c : Char) : Bool :=
  c.isAlphanum || c == '.' || c == '_' || c == '%' || c == '+' || c == '-'

/-- Character class of the email domain: A-Za-z0-9 dot hyphen. -/
def emailDomainClass (c : Char) : Bool :=
  c.isAlphanum || c == '.' || c == '-'

/-- Character class of the email top-level label as written in the
source: the ranges A-Z and a-z and the literal vertical bar. -/
def emailTldClass (c : Char) : Bool :=
  c.isAlpha || c == '|'

/-- One attempt of the email pattern starting at i. -/
def emailMatchAt (s : List Char) (i : Nat) : Bool :=
  boundaryAt s i &&
    (let fuel := s.length + 1
     let ends :=
       [i] |> pPlus (stepClass s emailLocalClass) fuel
           |> pSeq (stepChar s '@')
           |> pPlus (stepClass s emailDomainClass) fuel
           |> pSeq (stepChar s '.')
           |> pSeq (stepClass s emailTldClass)
           |> pSeq (stepClass s emailTldClass)
           |> pStar (stepClass s emailTldClass) fuel
     ends.any (boundaryAt s))

/-- re.search with the email pattern. -/
def emailSearch (v : String) : Bool :=
  let s := v.data
  (List.range (s.length + 1)).any (emailMatchAt s)

/-- Separator class of the phone pattern: hyphen, dot, whitespace. -/
def phoneSepClass (c : Char) : Bool :=
  c == '-' || c == '.' || isPySpace c

/-- The digit class 0..9. -/
def digitClass (c : Char) : Bool :=
  c.isDigit

/-- One attempt of the phone pattern starting at i: boundary, optional
country part (optional plus, the digit 1, optional separator), optional
opening parenthesis, three digits, optional closing parenthesis,
optional separator, three digits, optional separator, four digits,
boundary. -/
def phoneMatchAt (s : List Char) (i : Nat) : Bool :=
  boundaryAt s i &&
    (let country := fun ps =>
       ps |> pOpt (stepChar s '+')
          |> pSeq (stepChar s '1')
          |> pOpt (stepClass s phoneSepClass)
     let ends :=
       [i] |> pOptSet country
           |> pOpt (stepChar s '(')
           |> pRepN (stepClass s digitClass) 3
           |> pOpt (stepChar s ')')
           |> pOpt (stepClass s phoneSepClass)
           |> pRepN (stepClass s digitClass) 3
           |> pOpt (stepClass s phoneSepClass)
           |> pRepN (stepClass s digitClass) 4
     ends.any (boundaryAt s))

/-- re.search with the phone pattern. -/
def phoneSearch (v : String) : Bool :=
  let s := v.data
  (List.range (s.length + 1)).any (phoneMatchAt s)

/-- One attempt of the SSN pattern starting at i (two alternatives:
3-2-4 digits with hyphens, or nine bare digits, each between word
boundaries). -/
def ssnMatchAt (s : List Char) (i : Nat) : Bool :=
  (boundaryAt s i &&
    (([i] |> pRepN (stepClass s digitClass) 3
          |> pSeq (stepChar s '-')
          |> pRepN (stepClass s digitClass) 2
          |> pSeq (stepChar s '-')
          |> pRepN (stepClass s digitClass) 4).any (boundaryAt s))) ||
  (boundaryAt s i &&
    (([i] |> pRepN (stepClass s digitClass) 9).any (boundaryAt s)))

/-- re.search with the SSN pattern. -/
def ssnSearch (v : String) : Bool :=
  let s := v.data
  (List.range (s.length + 1)).any (ssnMatchAt s)

/-- Separator class of the credit-card pattern: hyphen or whitespace. -/
def ccSepClass (c : Char) : Bool :=
  c == '-' || isPySpace c

/-- One group of the credit-card pattern: four digits and an optional
separator. -/
def ccGroup (s : List Char) (ps : List Nat) : List Nat :=
  ps |> pRepN (stepClass s digitClass) 4 |> pOpt (stepClass s ccSepClass)

/-- One attempt of the credit-card pattern starting at i: boundary,
three groups, four digits, boundary. -/
def ccMatchAt (s : List Char) (i : Nat) : Bool :=
  boundaryAt s i &&
    (([i] |> ccGroup s |> ccGroup s |> ccGroup s
          |> pRepN (stepClass s digitClass) 4).any (boundaryAt s))

/-- re.search with the credit-card pattern. -/
def ccSearch (v : String) : Bool :=
  let s := v.data
  (List.range (s.length + 1)).any (ccMatchAt s)

/-- One to three digits. -/
def ipDigits13 (s : List Char) (ps : List Nat) : List Nat :=
  ps |> pRepN (stepClass s digitClass) 1
     |> pOpt (stepClass s digitClass)
     |> pOpt (stepClass s digitClass)

/-- One dotted group of the IP pattern. -/
def ipGroup (s : List Char) (ps : List Nat) : List Nat :=
  ps |> ipDigits13 s |> pSeq (stepChar s '.')

/-- One attempt of the IP pattern starting at i: boundary, three dotted
groups, one to three digits, boundary. -/
def ipMatchAt (s : List Char) (i : Nat) : Bool :=
  boundaryAt s i &&
    (([i] |> ipGroup s |> ipGroup s |> ipGroup s |> ipDigits13 s).any (boundaryAt s))

/-- re.search with the IP pattern. -/
def ipSearch (v : String) : Bool :=
  let s := v.data
  (List.range (s.length + 1)).any (ipMatchAt s)

/-- The single-character alternatives of the URL pattern: letters,
digits, the character range from dollar (36) to underscore (95), and
the literals bang, star, backslash, parentheses, comma. -/
def urlCharClass (c : Char) : Bool :=
  c.isAlpha || c.isDigit || (36 ≤ c.toNat && c.toNat ≤ 95) ||
    c == '!' || c == '*' || c == '\\' || c == '(' || c == ')' || c == ','

/-- Hexadecimal digit class 0-9a-fA-F. -/
def hexDigitClass (c : Char) : Bool :=
  c.isDigit || (97 ≤ c.toNat && c.toNat ≤ 102) || (65 ≤ c.toNat && c.toNat ≤ 70)

/-- One repeated piece of the URL pattern: a single allowed character,
or a percent-encoded byte. -/
def urlPiece (s : List Char) (i : Nat) : List Nat :=
  dedupPos (stepClass s urlCharClass i ++
    ([i] |> pSeq (stepChar s '%')
         |> pSeq (stepClass s hexDigitClass)
         |> pSeq (stepClass s hexDigitClass)))

/-- One attempt of the URL pattern starting at i: the literal http, an
optional s, the literal colon-slash-slash, then one or more pieces
(the pattern has no boundary assertions). -/
def urlMatchAt (s : List Char) (i : Nat) : Bool :=
  !([i] |> pSeq (stepLit s ['h', 't', 't', 'p'])
        |> pOpt (stepChar s 's')
        |> pSeq (stepLit s [':', '/', '/'])
        |> pSeq (urlPiece s)
        |> pStar (urlPiece s) (s.length + 1)).isEmpty

/-- re.search with the URL pattern. -/
def urlSearch (v : String) : Bool :=
  let s := v.data
  (List.range (s.length + 1)).any (urlMatchAt s)

/-- Search with the pattern named by k. -/
def patternSearch (k : PatternKind) (v : String) : Bool :=
  match k with
  | .email => emailSearch v
  | .phone => phoneSearch v
  | .ssn => ssnSearch v
  | .creditCard => ccSearch v
  | .ipAddress => ipSearch v
  | .url => urlSearch v

/-- The content-classification loop of mask_data_value: try the six
data patterns in dictionary insertion order on the stringified value
and report the first that fires. -/
def classifyContent (s : String) : Option PatternKind :=
  if emailSearch s then some .email
  else if phoneSearch s then some .phone
  else if ssnSearch s then some .ssn
  else if ccSearch s then some .creditCard
  else if ipSearch s then some .ipAddress
  else if urlSearch s then some .url
  else none

/-! ## Masking transforms (PIIDetector._mask_email .. _mask_name) -/

/-- Model of PIIDetector._mask_email. Python string indexing raises
IndexError on an empty string; the source indexes the first domain
label, the domain, and the local part without emptiness checks, in
that evaluation order. -/
def maskEmail (email : String) : Except PyError String :=
  let e := email.data
  if e.contains '@' then
    match pySplit '@' e with
    | [user, domain] =>
      if domain.contains '.' then
        let dp := pySplit '.' domain
        match (dp.headD []).head? with
        | some c0 =>
          let maskedDomain := c0 :: ('*' :: '*' :: '*' :: '.' :: []) ++ (dp.getLast?.getD [])
          match user.head? with
          | some u0 => .ok (String.mk (u0 :: ('*' :: '*' :: '*' :: '@' :: []) ++ maskedDomain))
          | none => .error .indexError
        | none => .error .indexError
      else
        match domain.head? with
        | some d0 =>
          let maskedDomain := d0 :: ('*' :: '*' :: '*' :: [])
          match user.head? with
          | some u0 => .ok (String.mk (u0 :: ('*' :: '*' :: '*' :: '@' :: []) ++ maskedDomain))
          | none => .error .indexError
        | none => .error .indexError
    | _ => .ok "[EMAIL MASKED]"
  else .ok "[EMAIL MASKED]"

/-- Model of PIIDetector._mask_phone. -/
def maskPhone (phone : String) : String :=
  let d := pyDigits phone.data
  if d.length ≥ 4 then "***-***-" ++ String.mk (takeLast 4 d)
  else "[PHONE MASKED]"

/-- Model of PIIDetector._mask_ssn. -/
def maskSsn (ssn : String) : String :=
  let d := pyDigits ssn.data
  if d.length == 9 then "***-**-" ++ String.mk (takeLast 4 d)
  else "[SSN MASKED]"

/-- Model of PIIDetector._mask_credit_card. -/
def maskCreditCard (cc : String) : String :=
  let d := pyDigits cc.data
  if d.length ≥ 4 then "****-****-****-" ++ String.mk (takeLast 4 d)
  else "[CARD MASKED]"

/-- Model of PIIDetector._mask_ip. -/
def maskIp (ip : String) : String :=
  let parts := pySplit '.' ip.data
  if parts.length == 4 then "***.***.***." ++ String.mk (parts.getLast?.getD [])
  else "[IP MASKED]"

/-- Model of PIIDetector._mask_name. Tokens of length greater than one
keep their first character followed by three stars; indexing is guarded
by the length tests, so this transform is total. -/
def maskName (name : String) : String :=
  if name.data.isEmpty || name.data.length < 2 then "[NAME MASKED]"
  else
    let ns := pyStrip name.data
    if ns.contains ' ' then
      let parts := pySplit ' ' ns
      String.mk (List.intercalate [' ']
        (parts.map (fun part =>
          if part.length > 1 then part.headD ' ' :: ('*' :: '*' :: '*' :: []) else part)))
    else
      if ns.length > 1 then String.mk (ns.headD ' ' :: ('*' :: '*' :: '*' :: []))
      else "[NAME MASKED]"

/-! ## Masking Engine (PIIDetector.mask_data_value and dispatch) -/

/-- The keyword dispatch of _mask_by_column_type: the chain of elif
branches, each testing substring containment of category keywords in
the lowered column name, in source order. -/
def columnCategory (columnName : String) : PiiCategory :=
  let cl := pyLower columnName
  if containsSub cl "email" || containsSub cl "mail" then .email
  else if containsSub cl "phone" || containsSub cl "mobile" || containsSub cl "tel" then .phone
  else if containsSub cl "ssn" || containsSub cl "social_security" then .ssn
  else if containsSub cl "password" || containsSub cl "passwd" || containsSub cl "pwd" || containsSub cl "pass" then .password
  else if containsSub cl "credit_card" || containsSub cl "card_number" then .creditCard
  else if containsSub cl "address" || containsSub cl "street" then .address
  else if containsSub cl "name" || containsSub cl "fname" || containsSub cl "lname" then .name
  else if containsSub cl "salary" || containsSub cl "wage" || containsSub cl "income" then .salary
  else .other

/-- Model of PIIDetector._mask_by_column_type. -/
def maskByColumnType (value : String) (columnName : String) : Except PyError String :=
  match columnCategory columnName with
  | .email => maskEmail value
  | .phone => .ok (maskPhone value)
  | .ssn => .ok (maskSsn value)
  | .password => .ok "[MASKED]"
  | .creditCard => .ok (maskCreditCard value)
  | .address => .ok "[ADDRESS MASKED]"
  | .name => .ok (maskName value)
  | .salary => .ok "[AMOUNT MASKED]"
  | .other => .ok "[PII MASKED]"

/-- Model of PIIDetector._mask_by_pattern (the final catch-all literal
of the source is unreachable for the six pattern names). -/
def maskByPattern (value : String) (k : PatternKind) : Except PyError String :=
  match k with
  | .email => maskEmail value
  | .phone => .ok (maskPhone value)
  | .ssn => .ok (maskSsn value)
  | .creditCard => .ok (maskCreditCard value)
  | .ipAddress => .ok (maskIp value)
  | .url => .ok "[URL MASKED]"

/-- Model of PIIDetector.mask_data_value: None passes through; a
name-flagged column is masked by column type regardless of content;
otherwise the first matching data pattern masks the stringified value;
otherwise the original value is returned. -/
def maskDataValue (value : Value) (columnName : String) : Except PyError Value :=
  match value with
  | .vNone => .ok .vNone
  | v =>
    let s := pyStr v
    if isPiiColumn columnName then (maskByColumnType s columnName).map Value.vStr
    else
      match classifyContent s with
      | some k => (maskByPattern s k).map Value.vStr
      | none => .ok v

/-- The per-value masking step of get_sample_data: applied only when
PII protection is enabled, otherwise the value is untouched. -/
def maskIfEnabled (enabled : Bool) (value : Value) (columnName : String) : Except PyError Value :=
  if enabled then maskDataValue value columnName else .ok value

-- quick sanity examples (claim-level evaluation happens in the theorems)
example : isPiiColumn "email_backup" = true := by decide
example : maskName "John Doe" = "J*** D***" := by decide

/-! ## Report Renderer (generate_markdown, sample-data cells) -/

/-- Model of Python str.replace for a one-character target: every
occurrence is replaced by rep. -/
def pyReplace (tgt : Char) (rep : List Char) : List Char → List Char
  | [] => []
  | c :: rest => (if c == tgt then rep else [c]) ++ pyReplace tgt rep rest

/-- The escaping applied to string cells in generate_markdown, in
source order: the pipe becomes backslash-pipe, then newline and
carriage return each become a space. -/
def escapeCellChars (s : List Char) : List Char :=
  pyReplace '\r' [' '] (pyReplace '\n' [' '] (pyReplace '|' ['\\', '|'] s))

/-- Model of one sample-data cell in generate_markdown: None renders as
the literal NULL; a string is escaped and truncated to its first 47
characters plus a three-character ellipsis when the escaped form is
longer than 50 characters; any other value renders as its str() form
unchanged. -/
def renderCell : Value → String
  | .vNone => "NULL"
  | .vStr s =>
    let escaped := escapeCellChars s.data
    if escaped.length > 50 then String.mk (escaped.take 47 ++ ('.' :: '.' :: '.' :: []))
    else String.mk escaped
  | .vOther r => r

/-- One column row of the DESCRIBE output as stored by get_table_info. -/
structure ColumnInfo where
  name : String
  colType : String
  nullAttr : String
  keyAttr : String
  colDefault : Option String
  extra : String
deriving DecidableEq, Repr

/-- The dictionary returned by get_table_info. -/
structure TableInfo where
  columns : List ColumnInfo
  description : String
  rowCount : Nat
deriving DecidableEq, Repr

/-- The dictionary returned by get_sample_data: parallel column names
and rows of scalar values. -/
structure SampleData where
  columns : List String
  rows : List (List Value)
deriving DecidableEq, Repr

/-- The substitute sample object used when sampling fails. -/
def emptySampleData : SampleData :=
  { columns := [], rows := [] }

/-- The sample-data section heading line of generate_markdown. -/
def sampleSectionHeader (piiEnabled : Bool) (sample : SampleData) : String :=
  "\n## Sample Data" ++ (if piiEnabled then " (PII Protected)" else "") ++
    " (Latest " ++ toString sample.rows.length ++ " rows)\n\n"

/-- One rendered sample row. -/
def renderRow (row : List Value) : String :=
  "| " ++ String.intercalate " | " (row.map renderCell) ++ " |\n"

/-- The body of the sample-data section: a markdown table when rows
exist, a fixed placeholder otherwise. -/
def sampleSectionBody (sample : SampleData) : String :=
  if sample.rows.isEmpty then "*No data available*\n"
  else
    "| " ++ String.intercalate " | " sample.columns ++ " |\n" ++
    "| " ++ String.intercalate " | " (sample.columns.map (fun _ => "---")) ++ " |\n" ++
    String.join (sample.rows.map renderRow)

/-! ## Driver (generate_data_dictionary per-table loop, get_databases,
get_db_config) -/

/-- The per-table loop of generate_data_dictionary, abstracted over the
outcomes of introspection and sampling for each table (in order): a
table whose get_table_info call fails is skipped with no file; a table
whose get_sample_data call fails still gets a file, built from the
empty sample object; each table is visited exactly once and nothing is
retried. The result lists, per written file, its name and the data it
renders. -/
def processTables (db : String) :
    List (String × Option TableInfo × Option SampleData) →
    List (String × TableInfo × SampleData)
  | [] => []
  | (t, infoRes, sampleRes) :: rest =>
    match infoRes with
    | none => processTables db rest
    | some info =>
      (db ++ "." ++ t ++ ".md", info, sampleRes.getD emptySampleData) :: processTables db rest

/-- The fixed system schemas excluded by get_databases. -/
def systemDbs : List String :=
  ["information_schema", "mysql", "performance_schema", "sys"]

/-- Model of get_databases: every database reported by the server is
kept except the fixed system schemas; no other filtering exists. -/
def getDatabases (shown : List String) : List String :=
  shown.filter (fun db => !systemDbs.contains db)

/-- Python truthiness-based or on optional strings (os.getenv chains). -/
def pyOr (a b : Option String) : Option String :=
  match a with
  | some s => if s.isEmpty then b else some s
  | none => b

/-- Truthiness of an optional string. -/
def truthyOpt (a : Option String) : Bool :=
  match a with
  | some s => !s.isEmpty
  | none => false

/-- Python input(...).strip() or default. -/
def orDefault (raw : String) (dflt : String) : String :=
  let t := String.mk (pyStrip raw.data)
  if t.isEmpty then dflt else t

/-- The configuration assembled by get_db_config. The source reads
exactly these six values; no database allow-list is read or stored. -/
structure DbConfig where
  host : String
  port : String
  user : String
  password : String
  outputDir : String
  piiProtection : Bool
deriving DecidableEq, Repr

/-- Model of get_db_config: env gives the process environment
(none when the variable is unset) and input the interactive answers,
keyed by prompt. -/
def getDbConfig (env : String → Option String) (input : String → String) : DbConfig :=
  let host0 := pyOr (env "DB_HOST") (env "MYSQL_HOST")
  let port0 := pyOr (env "DB_PORT") (env "MYSQL_PORT")
  let user0 := pyOr (env "DB_USER") (env "MYSQL_USER")
  let password0 := pyOr (env "DB_PASSWORD") (env "MYSQL_PASSWORD")
  let outputDir0 := env "OUTPUT_DIR"
  let pii0 := ["true", "1", "yes", "on"].contains (pyLower ((env "PII_PROTECTION").getD "true"))
  { host := if truthyOpt host0 then host0.getD "" else orDefault (input "MySQL Host (default: localhost): ") "localhost"
    port := if truthyOpt port0 then port0.getD "" else orDefault (input "MySQL Port (default: 3306): ") "3306"
    user := if truthyOpt user0 then user0.getD "" else String.mk (pyStrip (input "MySQL Username: ").data)
    password := if truthyOpt password0 then password0.getD "" else String.mk (pyStrip (input "MySQL Password: ").data)
    outputDir := if truthyOpt outputDir0 then outputDir0.getD "" else orDefault (input "Output Directory (default: data_dictionary): ") "data_dictionary"
    piiProtection :=
      if (env "PII_PROTECTION").isNone then
        !(["n", "no", "false", "0", "off"].contains
            (pyLower (String.mk (pyStrip (input "Enable PII Protection? (Y/n): ").data))))
      else pii0 }

/-! ## Claim theorems -/

/-- C1: for every non-null value and every column name flagged by the
Column Classifier, mask dispatches on the column name alone through the
keyword chain of _mask_by_column_type (whose branch order and fallback
literal are fixed by the definitions of columnCategory and
maskByColumnType), never consulting content classification; content
classification runs only for unflagged columns. -/
theorem mask_flagged_column_dispatch (v : Value) (c : String) (hv : v ≠ Value.vNone) :
    (isPiiColumn c = true →
      maskDataValue v c = (maskByColumnType (pyStr v) c).map Value.vStr) ∧
    (isPiiColumn c = false →
      maskDataValue v c =
        match classifyContent (pyStr v) with
        | some k => (maskByPattern (pyStr v) k).map Value.vStr
        | none => Except.ok v) := by
  cases v with
  | vNone => exact absurd rfl hv
  | vStr s => exact ⟨fun h => by simp [maskDataValue, h], fun h => by simp [maskDataValue, h]⟩
  | vOther r => exact ⟨fun h => by simp [maskDataValue, h], fun h => by simp [maskDataValue, h]⟩

/-- Witness for C1: a concrete flagged column uses the column-type
dispatch. -/
theorem mask_flagged_column_dispatch_witness :
    maskDataValue (Value.vStr "x") "user_email" =
      (maskByColumnType (pyStr (Value.vStr "x")) "user_email").map Value.vStr :=
  (mask_flagged_column_dispatch (Value.vStr "x") "user_email" (by decide)).1 (by decide)

/-- C2: contrary to the documented absence of failure modes, the
masking engine raises IndexError on the value "@example.com" in a
column named email: _mask_email splits on the at sign and indexes the
empty local part. -/
theorem mask_email_indexError_bug :
    maskDataValue (Value.vStr "@example.com") "email" = Except.error PyError.indexError := rfl

/-- C3: the documented concrete masking examples, and the
email_backup/not-an-email case where the name-based rule fires and the
email transform falls back because the value has no at sign. -/
theorem masking_transform_examples :
    maskEmail "john.doe@example.com" = Except.ok "j***@e***.com" ∧
    maskPhone "555-123-4567" = "***-***-4567" ∧
    maskSsn "123-45-6789" = "***-**-6789" ∧
    maskCreditCard "4111-1111-1111-1111" = "****-****-****-1111" ∧
    maskIp "192.168.1.100" = "***.***.***.100" ∧
    maskName "John Doe" = "J*** D***" ∧
    maskDataValue (Value.vStr "not-an-email") "email_backup" =
      Except.ok (Value.vStr "[EMAIL MASKED]") :=
  ⟨rfl, rfl, rfl, rfl, rfl, rfl, rfl⟩

/-- C5 counterexample: with PII protection enabled, the value J*** in
the flagged column first_name is replaced by the name transform with an
output equal to the input, so output equality with the input does not
imply the pass-through conditions of the claim. -/
theorem mask_fixed_point_counterexample :
    maskIfEnabled true (Value.vStr "J***") "first_name" = Except.ok (Value.vStr "J***") ∧
    isPiiColumn "first_name" = true :=
  ⟨rfl, rfl⟩

/-- C5 amended: mask is a pure function (the embedding is a function,
so determinism is definitional); a disabled toggle and a null value
always pass through; an enabled, non-null, unflagged, pattern-free
value passes through unchanged; and a flagged non-null value is
replaced by the column-type transform, whose output may only
coincidentally equal the input. -/
theorem mask_passthrough_characterization (v : Value) (c : String) :
    maskIfEnabled false v c = Except.ok v ∧
    maskDataValue Value.vNone c = Except.ok Value.vNone ∧
    (isPiiColumn c = false → classifyContent (pyStr v) = none →
      maskDataValue v c = Except.ok v) ∧
    (isPiiColumn c = true → v ≠ Value.vNone →
      maskDataValue v c = (maskByColumnType (pyStr v) c).map Value.vStr) := by
  refine ⟨rfl, rfl, ?_, ?_⟩
  · intro h1 h2
    cases v with
    | vNone => rfl
    | vStr s => simp [maskDataValue, h1, pyStr] at h2 ⊢; simp [h2]
    | vOther r => simp [maskDataValue, h1, pyStr] at h2 ⊢; simp [h2]
  · intro h1 hv
    cases v with
    | vNone => exact absurd rfl hv
    | vStr s => simp [maskDataValue, h1]
    | vOther r => simp [maskDataValue, h1]

/-- Witness for C5: a concrete unflagged, pattern-free value passes
through. -/
theorem mask_passthrough_characterization_witness :
    maskDataValue (Value.vStr "note text") "created_at" = Except.ok (Value.vStr "note text") :=
  (mask_passthrough_characterization (Value.vStr "note text") "created_at").2.2.1
    (by decide) (by decide)

/-- C6: null values are never classified (mask returns None before
stringifying, and the renderer emits the literal NULL); for unflagged
columns the stringified value is classified by the six patterns in
dictionary order with the first match winning (the loop equals an
ordered first-match search); and a pattern occurrence inside a longer
string counts, as on the value "contact jane@x.com" in the unflagged
column notes. -/
theorem content_classification_order (c : String) (v : Value) :
    maskDataValue Value.vNone c = Except.ok Value.vNone ∧
    renderCell Value.vNone = "NULL" ∧
    (v ≠ Value.vNone → isPiiColumn c = false →
      maskDataValue v c =
        match classifyContent (pyStr v) with
        | some k => (maskByPattern (pyStr v) k).map Value.vStr
        | none => Except.ok v) ∧
    classifyContent (pyStr v) =
      [PatternKind.email, PatternKind.phone, PatternKind.ssn,
       PatternKind.creditCard, PatternKind.ipAddress, PatternKind.url].find?
        (fun k => patternSearch k (pyStr v)) ∧
    classifyContent "contact jane@x.com" = some PatternKind.email ∧
    maskDataValue (Value.vStr "contact jane@x.com") "notes" =
      Except.ok (Value.vStr "c***@x***.com") := by
  refine ⟨rfl, rfl, ?_, ?_, by decide, rfl⟩
  · intro hv h
    cases v with
    | vNone => exact absurd rfl hv
    | vStr s => simp [maskDataValue, h]
    | vOther r => simp [maskDataValue, h]
  · by_cases h1 : emailSearch (pyStr v) <;>
    by_cases h2 : phoneSearch (pyStr v) <;>
    by_cases h3 : ssnSearch (pyStr v) <;>
    by_cases h4 : ccSearch (pyStr v) <;>
    by_cases h5 : ipSearch (pyStr v) <;>
    by_cases h6 : urlSearch (pyStr v) <;>
    simp [classifyContent, patternSearch, h1, h2, h3, h4, h5, h6]

/-- Witness for C6: a concrete unflagged, pattern-free value takes the
content branch of mask_data_value. -/
theorem content_classification_order_witness :
    maskDataValue (Value.vStr "hello") "status" = Except.ok (Value.vStr "hello") :=
  (content_classification_order "status" (Value.vStr "hello")).2.2.1 (by decide) (by decide)

/-- C8: in the per-table loop, a table whose introspection fails
produces no file and the loop continues with the remaining tables; a
table whose sampling fails still produces a file rendering the empty
sample object, whose sample-data section is the no-data placeholder
under a Latest 0 rows heading. -/
theorem per_table_failure_handling (db t : String)
    (rest : List (String × Option TableInfo × Option SampleData))
    (sampleRes : Option SampleData) (info : TableInfo) :
    processTables db ((t, none, sampleRes) :: rest) = processTables db rest ∧
    processTables db ((t, some info, none) :: rest) =
      (db ++ "." ++ t ++ ".md", info, emptySampleData) :: processTables db rest ∧
    sampleSectionBody emptySampleData = "*No data available*\n" ∧
    sampleSectionHeader true emptySampleData = "\n## Sample Data (PII Protected) (Latest 0 rows)\n\n" :=
  ⟨rfl, rfl, rfl, rfl⟩

/-- C9 counterexample: the database filter keeps every non-system
database, so a run with an intended allow-list containing only sales
still processes hr (the code reads no allow-list at all; DbConfig
carries only the six values read by get_db_config). -/
theorem no_allowlist_counterexample :
    "hr" ∈ getDatabases ["sales", "hr", "mysql"] ∧ "hr" ∉ (["sales"] : List String) := by
  decide

/-- C9 amended: get_databases keeps exactly the shown databases that
are not one of the four fixed system schemas; no configuration value
restricts this further. -/
theorem getDatabases_filters_only_system (shown : List String) (db : String) :
    db ∈ getDatabases shown ↔ db ∈ shown ∧ db ∉ systemDbs := by
  simp [getDatabases, List.mem_filter]

/-- C10: a non-null, non-string sample value renders as its str() form
unchanged: no pipe escaping, no newline stripping, no truncation. -/
theorem non_string_cell_passthrough (r : String) : renderCell (Value.vOther r) = r := rfl

/-! ## Column-classifier characterization (C4) -/

/-- On a newline-free subject, the anchored dot-star match coincides
with plain substring containment. -/
theorem reMatchDotStar_eq_specContains (pat : List Char) (s : List Char) (h : '\n' ∉ s) :
    reMatchDotStar pat s = specContains pat s := by
  induction s with
  | nil => cases pat <;> rfl
  | cons c rest ih =>
    have hc : (c != '\n') = true := by
      simp only [bne_iff_ne, ne_eq]
      intro hEq
      exact h (by simp [hEq])
    have hr : '\n' ∉ rest := fun hm => h (List.mem_cons_of_mem c hm)
    simp [reMatchDotStar, specContains, hc, ih hr]

/-- Lowercasing one character never produces a newline from a
non-newline. -/
theorem pyLowerChar_ne_newline (c : Char) (h : c ≠ '\n') : pyLowerChar c ≠ '\n' := by
  unfold pyLowerChar
  split
  · rename_i hcond
    simp only [Bool.and_eq_true, decide_eq_true_eq] at hcond
    obtain ⟨h1, h2⟩ := hcond
    intro heq
    obtain ⟨n, hn⟩ : ∃ n, c.toNat = n := ⟨_, rfl⟩
    rw [hn] at h1 h2 heq
    interval_cases n <;> exact absurd heq (by decide)
  · exact h

/-- Lowercasing a newline-free string is newline-free. -/
theorem pyLower_no_newline (s : String) (h : '\n' ∉ s.data) : '\n' ∉ (pyLower s).data := by
  intro hmem
  rw [show (pyLower s).data = s.data.map pyLowerChar from rfl] at hmem
  obtain ⟨a, ha, haEq⟩ := List.mem_map.mp hmem
  by_cases hA : a = '\n'
  · exact h (hA ▸ ha)
  · exact pyLowerChar_ne_newline a hA haEq

/-- C4 counterexample: a column name with a newline before the listed
substring defeats the anchored dot-star patterns, so is_pii_column is
false although the lower-cased name contains the substring email. -/
theorem isPiiColumn_newline_counterexample :
    isPiiColumn "x\nemail" = false ∧
    specContains "email".data (pyLower "x\nemail").data = true :=
  ⟨rfl, rfl⟩

/-- C4 amended: for every newline-free column name, is_pii_column is
true exactly when the lower-cased name contains one of the fixed
substrings (any match suffices); the control names id, created_at and
status are not flagged. -/
theorem isPiiColumn_substring_characterization :
    (∀ s : String, '\n' ∉ s.data →
      (isPiiColumn s = true ↔
        ∃ p ∈ piiColumnSubstrings, specContains p.data (pyLower s).data = true)) ∧
    isPiiColumn "id" = false ∧ isPiiColumn "created_at" = false ∧
    isPiiColumn "status" = false := by
  refine ⟨?_, by decide, by decide, by decide⟩
  intro s h
  have h2 := pyLower_no_newline s h
  simp only [isPiiColumn, List.any_eq_true]
  constructor
  · rintro ⟨p, hp, hm⟩
    exact ⟨p, hp, (reMatchDotStar_eq_specContains p.data (pyLower s).data h2) ▸ hm⟩
  · rintro ⟨p, hp, hm⟩
    exact ⟨p, hp, (reMatchDotStar_eq_specContains p.data (pyLower s).data h2).symm ▸ hm⟩

/-- Witness for C4 amended: the characterization at the concrete name
user_email. -/
theorem isPiiColumn_substring_characterization_witness :
    isPiiColumn "user_email" = true ↔
      ∃ p ∈ piiColumnSubstrings, specContains p.data (pyLower "user_email").data = true :=
  isPiiColumn_substring_characterization.1 "user_email" (by decide)

/-! ## Cell-rendering invariants (C7) -/

/-- Every pipe character of the list is immediately preceded by a
backslash (in particular, none at position zero). -/
def NoBarePipe (l : List Char) : Prop :=
  l.get? 0 ≠ some '|' ∧ ∀ i : Nat, l.get? (i + 1) = some '|' → l.get? i = some '\\'

/-- The pipe-escaping pass establishes the invariant. -/
theorem pyReplace_pipe_noBarePipe (s : List Char) :
    NoBarePipe (pyReplace '|' ['\\', '|'] s) := by
  induction s with
  | nil => exact ⟨by simp [pyReplace], fun i h => by simp [pyReplace] at h⟩
  | cons c rest ih =>
    by_cases hc : c = '|'
    · subst hc
      refine ⟨by simp [pyReplace], ?_⟩
      intro i h
      match i with
      | 0 => rfl
      | 1 =>
        rw [show pyReplace '|' ['\\', '|'] ('|' :: rest) =
            '\\' :: '|' :: pyReplace '|' ['\\', '|'] rest from by simp [pyReplace]] at h
        simp only [List.get?_cons_succ] at h
        exact absurd h ih.1
      | (j + 2) =>
        rw [show pyReplace '|' ['\\', '|'] ('|' :: rest) =
            '\\' :: '|' :: pyReplace '|' ['\\', '|'] rest from by simp [pyReplace]] at h ⊢
        simp only [List.get?_cons_succ] at h ⊢
        exact ih.2 j h
    · have hrw : pyReplace '|' ['\\', '|'] (c :: rest) =
          c :: pyReplace '|' ['\\', '|'] rest := by
        simp [pyReplace, hc]
      refine ⟨?_, ?_⟩
      · rw [hrw]
        simp only [List.get?_cons_zero, ne_eq, Option.some.injEq]
        exact hc
      · intro i h
        match i with
        | 0 =>
          rw [hrw] at h
          simp only [List.get?_cons_succ] at h
          exact absurd h ih.1
        | (j + 1) =>
          rw [hrw] at h ⊢
          simp only [List.get?_cons_succ] at h ⊢
          exact ih.2 j h

/-- Replacing a single character by a single character is a map. -/
theorem pyReplace_single_eq_map (tgt x : Char) (s : List Char) :
    pyReplace tgt [x] s = s.map (fun c => if c == tgt then x else c) := by
  induction s with
  | nil => rfl
  | cons c rest ih =>
    by_cases hc : c = tgt
    · subst hc; simp [pyReplace, ih]
    · simp [pyReplace, hc, ih]

/-- A map that creates no pipes and fixes the backslash preserves the
invariant. -/
theorem noBarePipe_map (f : Char → Char) (hpipe : ∀ c, f c = '|' → c = '|')
    (hback : f '\\' = '\\') (l : List Char) (h : NoBarePipe l) : NoBarePipe (l.map f) := by
  constructor
  · intro hx
    rw [List.get?_map] at hx
    match hEq : l.get? 0 with
    | none => rw [hEq] at hx; simp at hx
    | some c =>
      rw [hEq] at hx
      simp only [Option.map_some'] at hx
      exact h.1 (by rw [hEq, hpipe c (Option.some.inj hx)])
  · intro i hx
    rw [List.get?_map] at hx ⊢
    match hEq : l.get? (i + 1) with
    | none => rw [hEq] at hx; simp at hx
    | some c =>
      rw [hEq] at hx
      simp only [Option.map_some'] at hx
      have hprev := h.2 i (by rw [hEq, hpipe c (Option.some.inj hx)])
      rw [hprev]
      simp [hback]

/-- The full escaping pass establishes the invariant. -/
theorem escapeCellChars_noBarePipe (s : List Char) : NoBarePipe (escapeCellChars s) := by
  unfold escapeCellChars
  rw [pyReplace_single_eq_map, pyReplace_single_eq_map]
  refine noBarePipe_map _ ?_ (by decide) _ ?_
  · intro c hc
    by_cases h : c = '\r'
    · subst h; simp at hc
    · simpa [beq_iff_eq, h] using hc
  · refine noBarePipe_map _ ?_ (by decide) _ ?_
    · intro c hc
      by_cases h : c = '\n'
      · subst h; simp at hc
      · simpa [beq_iff_eq, h] using hc
    · exact pyReplace_pipe_noBarePipe s

/-- The escaped form holds no newline and no carriage return. -/
theorem escapeCellChars_no_newline (s : List Char) :
    ∀ c ∈ escapeCellChars s, c ≠ '\n' ∧ c ≠ '\r' := by
  have hchar : ∀ a : Char,
      (fun c => if c == '\r' then ' ' else c) ((fun c => if c == '\n' then ' ' else c) a) ≠ '\n' ∧
      (fun c => if c == '\r' then ' ' else c) ((fun c => if c == '\n' then ' ' else c) a) ≠ '\r' := by
    intro a
    by_cases h1 : a = '\n'
    · subst h1; exact ⟨by decide, by decide⟩
    · by_cases h2 : a = '\r'
      · subst h2; exact ⟨by decide, by decide⟩
      · simp only [beq_iff_eq, h1, h2, if_false]
        exact ⟨h1, h2⟩
  intro c hc
  unfold escapeCellChars at hc
  rw [pyReplace_single_eq_map, pyReplace_single_eq_map, List.map_map] at hc
  obtain ⟨a, _, ha⟩ := List.mem_map.mp hc
  rw [← ha]
  exact hchar a

/-- The invariant survives truncation to the first 47 characters plus
the three-dot ellipsis. -/
theorem noBarePipe_truncate (e : List Char) (h : NoBarePipe e) :
    NoBarePipe (e.take 47 ++ ('.' :: '.' :: '.' :: [])) := by
  have hdots : ∀ j : Nat, (('.' :: '.' :: '.' :: []) : List Char).get? j ≠ some '|' := by
    intro j
    match j with
    | 0 => decide
    | 1 => decide
    | 2 => decide
    | (j + 3) => simp
  have hlen : (e.take 47).length = min 47 e.length := List.length_take 47 e
  constructor
  · intro hx
    by_cases h0 : 0 < (e.take 47).length
    · rw [List.get?_append h0] at hx
      rw [List.get?_take (show (0 : Nat) < 47 by omega)] at hx
      exact h.1 hx
    · have hnil : e.take 47 = [] := List.length_eq_zero.mp (by omega)
      rw [hnil] at hx
      exact hdots 0 hx
  · intro i hx
    by_cases hi : i + 1 < (e.take 47).length
    · rw [List.get?_append hi] at hx
      have h47 : i + 1 < 47 := by omega
      rw [List.get?_take h47] at hx
      have hprev := h.2 i hx
      have hi2 : i < (e.take 47).length := by omega
      rw [List.get?_append hi2, List.get?_take (show i < 47 by omega)]
      exact hprev
    · rw [List.get?_append_right (by omega)] at hx
      exact absurd hx (hdots _)

/-- C7: a rendered string cell whose escaped form is longer than 50
characters is output as exactly 50 characters, the first 47 characters
of the escaped form plus the three-character ellipsis; and in every
rendered string cell each pipe is preceded by a backslash and no
newline or carriage return appears. -/
theorem string_cell_truncation_escaping (s : String) :
    ((escapeCellChars s.data).length > 50 →
      (renderCell (Value.vStr s)).length = 50 ∧
      renderCell (Value.vStr s) =
        String.mk ((escapeCellChars s.data).take 47 ++ ('.' :: '.' :: '.' :: []))) ∧
    NoBarePipe (renderCell (Value.vStr s)).data ∧
    (∀ c ∈ (renderCell (Value.vStr s)).data, c ≠ '\n' ∧ c ≠ '\r') := by
  have hr : renderCell (Value.vStr s) =
      if (escapeCellChars s.data).length > 50 then
        String.mk ((escapeCellChars s.data).take 47 ++ ('.' :: '.' :: '.' :: []))
      else String.mk (escapeCellChars s.data) := rfl
  refine ⟨?_, ?_, ?_⟩
  · intro h
    rw [hr, if_pos h]
    refine ⟨?_, rfl⟩
    show ((escapeCellChars s.data).take 47 ++ ('.' :: '.' :: '.' :: [])).length = 50
    have hlen := List.length_take 47 (escapeCellChars s.data)
    have h3 : (('.' :: '.' :: '.' :: []) : List Char).length = 3 := rfl
    simp only [List.length_append, hlen, h3]
    omega
  · rw [hr]
    split
    · exact noBarePipe_truncate _ (escapeCellChars_noBarePipe s.data)
    · exact escapeCellChars_noBarePipe s.data
  · rw [hr]
    split
    · intro c hc
      rcases List.mem_append.mp hc with h1 | h2
      · exact escapeCellChars_no_newline s.data c (List.mem_of_mem_take h1)
      · have hdot : c = '.' := by simpa using h2
        subst hdot
        exact ⟨by decide, by decide⟩
    · exact escapeCellChars_no_newline s.data

/-- Witness for C7: a 54-character string with a pipe and a newline
renders at exactly 50 characters. -/
theorem string_cell_truncation_escaping_witness :
    (renderCell (Value.vStr "aaaaaaaaaa|bbbbbbbbbb\ncccccccccc dddddddddd eeeeeeeeee")).length = 50 :=
  ((string_cell_truncation_escaping
      "aaaaaaaaaa|bbbbbbbbbb\ncccccccccc dddddddddd eeeeeeeeee").1 (by decide)).1
